import Mathlib

/-!
Shallow embedding of `keystone/exception.py`: the error-kind taxonomy
(every subclass of `Error`, with Python attribute lookup along the single
inheritance chain) and the message builder (`Error.__init__`,
`Error._build_message`, `SecurityError._build_message`,
`UnexpectedError._build_message`, `_format_with_unicode_kwargs`).

Modelling decisions, all taken from the source:
* Python `%`-interpolation of a format string against a keyword map is
  embedded by parsing the string into literal runs and `%(name)s` /
  `%(name)d` / `%(name)i` holes (the only placeholder forms the module
  uses) and rendering them left to right; the first failing hole decides
  the raised exception, as in CPython.  The embedding is exact on format
  strings built from those three forms alone (`supportedFormat`); Python
  additionally unescapes `%%` and renders or raises (`TypeError`,
  `ValueError`) on every other conversion specifier, which the embedding
  does not reproduce, so theorems that range over caller-supplied format
  strings carry a `supportedFormat` hypothesis.  Every template of the
  module itself satisfies `supportedFormat`.
* A substitution value is text, bytes, an integer, or some other object.
  Interpolating undecodable bytes into a text template raises
  `UnicodeDecodeError` (the Python 2 failure `_format_with_unicode_kwargs`
  exists to handle); the `isinstance(message, six.string_types)` test in
  `SecurityError._build_message` recognises text only (`six.string_types`
  on Python 3), matching the comment that the message "is sometimes a
  different exception or bytes".  A `%d` hole applied to a non-integer
  raises `TypeError`, and interpolating into a `None` template
  (`message_format` of a kind that never defines one) raises `TypeError`,
  as in Python; neither is caught anywhere in the module.  A *byte-string
  explicit message* on the SECURE debug path behaves differently per
  Python major version (Python 2 substitutes into it, since bytes pass
  `isinstance`; Python 3 renders its `b'...'` repr): no theorem below
  quantifies over that case, only over text and non-string objects, whose
  behaviour the two versions agree on.
* `oslo_utils.encodeutils.safe_decode` (external library): returns text
  unchanged, decodes bytes (raising `UnicodeDecodeError` when they cannot
  be decoded), and raises `TypeError` on any other input.
* The process-wide flags `CONF.insecure_debug` and
  `_FATAL_EXCEPTION_FORMAT_ERRORS` are passed explicitly as the `debug`
  and `fatal` parameters, read once at construction.
* `LOG.warning` is modelled by counting emitted warnings on the
  constructed instance.
* The classes deriving from plain `Exception` rather than `Error`
  (`ConfigRegistrationNotFound`, `KeystoneConfigurationError`,
  `MigrationNotProvided`, `CredentialEncryptionError`) never go through
  the message builder and are outside the kind enumeration.
* The `__init__` overrides of `AuthPluginException`,
  `AuthMethodNotSupported` and `AdditionalAuthRequired` only attach the
  structured `authentication` side payload (and the last always forwards
  `message=None`); they do not change message building and the payload is
  not modelled.
-/

namespace Keystone

set_option maxRecDepth 40000
set_option maxHeartbeats 1000000

/-- A Python value as it appears as an exception message or substitution
parameter: text (a unicode string); bytes, carrying the result of the
implicit ascii decode performed by text interpolation and the result of
`safe_decode` (either `none` when that operation raises
`UnicodeDecodeError`); an integer; or some other object (for example
another exception) whose `str()` rendering is the given text. -/
inductive PyValue where
  | vtext (s : String)
  | vbytes (ascii : Option String) (decoded : Option String)
  | vint (n : Int)
  | vobj (s : String)
deriving DecidableEq

/-- The Python exceptions the module's formatting paths can raise. -/
inductive PyErr where
  | keyError (name : String)
  | unicodeDecodeError
  | typeError
deriving DecidableEq

/-- Python truthiness of a value (`if message:`): empty strings and zero
are falsy, any other object is truthy. -/
def truthy : PyValue → Bool
  | .vtext s => !s.isEmpty
  | .vbytes ascii _ =>
    match ascii with
    | some s => !s.isEmpty
    | none => true
  | .vint n => n != 0
  | .vobj _ => true

/-- The `isinstance(message, six.string_types)` test of
`SecurityError._build_message`: true exactly for text (`six.string_types`
on Python 3; on Python 2 bytes would also pass, so theorems below do not
range over bytes messages on this path). -/
def isStr : PyValue → Bool
  | .vtext _ => true
  | _ => false

/-- The text of a text value (only ever applied under `isStr`). -/
def textOf : PyValue → String
  | .vtext s => s
  | _ => ""

/-- Rendering a value into a `%(name)s` hole of a text template:
`str()` conversion, raising `UnicodeDecodeError` on undecodable bytes
(the Python 2 behaviour that `_format_with_unicode_kwargs` handles on
the template-parameter path; theorems below use bytes values only on
that path). -/
def renderS : PyValue → Except PyErr String
  | .vtext s => .ok s
  | .vbytes ascii _ =>
    match ascii with
    | some s => .ok s
    | none => .error .unicodeDecodeError
  | .vint n => .ok (toString n)
  | .vobj s => .ok s

/-- Rendering a value into a `%(name)d` or `%(name)i` hole: only an
integer is accepted, anything else raises `TypeError`. -/
def renderNum : PyValue → Except PyErr String
  | .vint n => .ok (toString n)
  | _ => .error .typeError

/-- Modelled from the external collaborator
`oslo_utils.encodeutils.safe_decode`: text passes through, bytes are
decoded to text (`UnicodeDecodeError` when impossible), any other value
raises `TypeError`. -/
def safeDecode : PyValue → Except PyErr PyValue
  | .vtext s => .ok (.vtext s)
  | .vbytes _ decoded =>
    match decoded with
    | some s => .ok (.vtext s)
    | none => .error .unicodeDecodeError
  | .vint _ => .error .typeError
  | .vobj _ => .error .typeError

/-- One piece of a parsed `%`-format string. -/
inductive Seg where
  | lit (s : String)
  | strHole (name : String)
  | numHole (name : String) (conv : Char)
deriving DecidableEq

/-- Parse a Python format string into segments.  The fuel argument is the
length of the character list; every step consumes at least one character,
so the fuel never runs out on the initial call. -/
def parseAux : Nat → List Char → List Seg
  | 0, _ => []
  | _ + 1, [] => []
  | fuel + 1, '%' :: '(' :: rest =>
    let name := String.mk (rest.takeWhile (fun c => c != ')'))
    match rest.dropWhile (fun c => c != ')') with
    | ')' :: 's' :: rest2 => .strHole name :: parseAux fuel rest2
    | ')' :: 'd' :: rest2 => .numHole name 'd' :: parseAux fuel rest2
    | ')' :: 'i' :: rest2 => .numHole name 'i' :: parseAux fuel rest2
    | _ => .lit "%" :: parseAux fuel ('(' :: rest)
  | fuel + 1, c :: rest => .lit (String.mk [c]) :: parseAux fuel rest

/-- Parse a format string. -/
def parseString (s : String) : List Seg := parseAux s.data.length s.data

/-- Keyword lookup (`kwargs[name]`). -/
def lookupK : List (String × PyValue) → String → Option PyValue
  | [], _ => none
  | (k, v) :: rest, n => if k = n then some v else lookupK rest n

/-- Render one segment against the keyword map; a hole whose name is
absent raises `KeyError`. -/
def renderSeg (kwargs : List (String × PyValue)) : Seg → Except PyErr String
  | .lit s => .ok s
  | .strHole n =>
    match lookupK kwargs n with
    | none => .error (.keyError n)
    | some v => renderS v
  | .numHole n _ =>
    match lookupK kwargs n with
    | none => .error (.keyError n)
    | some v => renderNum v

/-- Render a segment list left to right, stopping at the first error. -/
def formatSegs : List Seg → List (String × PyValue) → Except PyErr String
  | [], _ => .ok ""
  | seg :: rest, kwargs =>
    match renderSeg kwargs seg with
    | .error e => .error e
    | .ok s =>
      match formatSegs rest kwargs with
      | .error e => .error e
      | .ok t => .ok (s ++ t)

/-- Python `msg_format % kwargs` on a text format string. -/
def pyFormat (fmt : String) (kwargs : List (String × PyValue)) : Except PyErr String :=
  formatSegs (parseString fmt) kwargs

/-- The dict comprehension `{k: safe_decode(v) for k, v in kwargs.items()}`. -/
def safeDecodeAll : List (String × PyValue) → Except PyErr (List (String × PyValue))
  | [] => .ok []
  | (k, v) :: rest =>
    match safeDecode v with
    | .error e => .error e
    | .ok v2 =>
      match safeDecodeAll rest with
      | .error e => .error e
      | .ok rest2 => .ok ((k, v2) :: rest2)

/-- The module-level function `_format_with_unicode_kwargs`: try the
interpolation; on `UnicodeDecodeError` retry with every keyword value
safe-decoded; if that decoding itself raises `UnicodeDecodeError` return
the raw format string.  Any other exception propagates. -/
def formatWithUnicodeKwargs (msg_format : String)
    (kwargs : List (String × PyValue)) : Except PyErr String :=
  match pyFormat msg_format kwargs with
  | .error .unicodeDecodeError =>
    match safeDecodeAll kwargs with
    | .ok kwargs2 => pyFormat msg_format kwargs2
    | .error .unicodeDecodeError => .ok msg_format
    | .error e => .error e
  | r => r

/-- Interpolating the `message_format` class attribute, which is `None`
on kinds that never define one: `None % kwargs` raises `TypeError`. -/
def formatTemplateAttr (msg_format : Option String)
    (kwargs : List (String × PyValue)) : Except PyErr String :=
  match msg_format with
  | some f => formatWithUnicodeKwargs f kwargs
  | none => .error .typeError

/-- Every concrete subclass of `Error` declared in the module, plus the
`Error` base itself, one constructor per class. -/
inductive K where
  | Error
  | ValidationError
  | URLValidationError
  | PasswordValidationError
  | PasswordAgeValidationError
  | SchemaValidationError
  | ValidationTimeStampError
  | ValidationExpirationError
  | StringLengthExceeded
  | ValidationSizeError
  | CircularRegionHierarchyError
  | ForbiddenNotSecurity
  | PasswordVerificationError
  | RegionDeletionError
  | PKITokenExpected
  | SecurityError
  | Unauthorized
  | PasswordExpired
  | AuthPluginException
  | MissingGroups
  | UserDisabled
  | AccountLocked
  | AuthMethodNotSupported
  | AdditionalAuthRequired
  | Forbidden
  | ForbiddenAction
  | ImmutableAttributeError
  | CrossBackendNotAllowed
  | InvalidPolicyAssociation
  | InvalidDomainConfig
  | NotFound
  | EndpointNotFound
  | MetadataNotFound
  | PolicyNotFound
  | PolicyAssociationNotFound
  | RoleNotFound
  | ImpliedRoleNotFound
  | InvalidImpliedRole
  | RoleAssignmentNotFound
  | RegionNotFound
  | ServiceNotFound
  | DomainNotFound
  | ProjectNotFound
  | InvalidParentProject
  | TokenNotFound
  | UserNotFound
  | GroupNotFound
  | MappingNotFound
  | TrustNotFound
  | TrustUseLimitReached
  | CredentialNotFound
  | VersionNotFound
  | EndpointGroupNotFound
  | IdentityProviderNotFound
  | ServiceProviderNotFound
  | FederatedProtocolNotFound
  | PublicIDNotFound
  | DomainConfigNotFound
  | Conflict
  | UnexpectedError
  | TrustConsumeMaximumAttempt
  | CertificateFilesUnavailable
  | MalformedEndpoint
  | MappedGroupNotFound
  | MetadataFileError
  | DirectMappingError
  | AssignmentTypeCalculationError
  | NotImplemented
  | Gone
  | ConfigFileNotFound
  | KeysNotFound
  | MultipleSQLDriversInConfig
  | UnsupportedTokenVersionException
  | SAMLSigningError
  | OAuthHeadersMissingError
  | TokenlessAuthConfigError
  | UnsupportedDriverVersion
deriving DecidableEq, BEq, Fintype

/-- The superclass of each class (`Error` is rooted at Python
`Exception`, outside the taxonomy). -/
def parent : K → Option K
  | .Error => none
  | .ValidationError => some .Error
  | .URLValidationError => some .ValidationError
  | .PasswordValidationError => some .ValidationError
  | .PasswordAgeValidationError => some .PasswordValidationError
  | .SchemaValidationError => some .ValidationError
  | .ValidationTimeStampError => some .Error
  | .ValidationExpirationError => some .Error
  | .StringLengthExceeded => some .ValidationError
  | .ValidationSizeError => some .Error
  | .CircularRegionHierarchyError => some .Error
  | .ForbiddenNotSecurity => some .Error
  | .PasswordVerificationError => some .ForbiddenNotSecurity
  | .RegionDeletionError => some .ForbiddenNotSecurity
  | .PKITokenExpected => some .ForbiddenNotSecurity
  | .SecurityError => some .Error
  | .Unauthorized => some .SecurityError
  | .PasswordExpired => some .Unauthorized
  | .AuthPluginException => some .Unauthorized
  | .MissingGroups => some .Unauthorized
  | .UserDisabled => some .Unauthorized
  | .AccountLocked => some .Unauthorized
  | .AuthMethodNotSupported => some .AuthPluginException
  | .AdditionalAuthRequired => some .AuthPluginException
  | .Forbidden => some .SecurityError
  | .ForbiddenAction => some .Forbidden
  | .ImmutableAttributeError => some .Forbidden
  | .CrossBackendNotAllowed => some .Forbidden
  | .InvalidPolicyAssociation => some .Forbidden
  | .InvalidDomainConfig => some .Forbidden
  | .NotFound => some .Error
  | .EndpointNotFound => some .NotFound
  | .MetadataNotFound => some .NotFound
  | .PolicyNotFound => some .NotFound
  | .PolicyAssociationNotFound => some .NotFound
  | .RoleNotFound => some .NotFound
  | .ImpliedRoleNotFound => some .NotFound
  | .InvalidImpliedRole => some .Forbidden
  | .RoleAssignmentNotFound => some .NotFound
  | .RegionNotFound => some .NotFound
  | .ServiceNotFound => some .NotFound
  | .DomainNotFound => some .NotFound
  | .ProjectNotFound => some .NotFound
  | .InvalidParentProject => some .NotFound
  | .TokenNotFound => some .NotFound
  | .UserNotFound => some .NotFound
  | .GroupNotFound => some .NotFound
  | .MappingNotFound => some .NotFound
  | .TrustNotFound => some .NotFound
  | .TrustUseLimitReached => some .Forbidden
  | .CredentialNotFound => some .NotFound
  | .VersionNotFound => some .NotFound
  | .EndpointGroupNotFound => some .NotFound
  | .IdentityProviderNotFound => some .NotFound
  | .ServiceProviderNotFound => some .NotFound
  | .FederatedProtocolNotFound => some .NotFound
  | .PublicIDNotFound => some .NotFound
  | .DomainConfigNotFound => some .NotFound
  | .Conflict => some .Error
  | .UnexpectedError => some .SecurityError
  | .TrustConsumeMaximumAttempt => some .UnexpectedError
  | .CertificateFilesUnavailable => some .UnexpectedError
  | .MalformedEndpoint => some .UnexpectedError
  | .MappedGroupNotFound => some .UnexpectedError
  | .MetadataFileError => some .UnexpectedError
  | .DirectMappingError => some .UnexpectedError
  | .AssignmentTypeCalculationError => some .UnexpectedError
  | .NotImplemented => some .Error
  | .Gone => some .Error
  | .ConfigFileNotFound => some .UnexpectedError
  | .KeysNotFound => some .UnexpectedError
  | .MultipleSQLDriversInConfig => some .UnexpectedError
  | .UnsupportedTokenVersionException => some .UnexpectedError
  | .SAMLSigningError => some .UnexpectedError
  | .OAuthHeadersMissingError => some .UnexpectedError
  | .TokenlessAuthConfigError => some .ValidationError
  | .UnsupportedDriverVersion => some .UnexpectedError

/-- The `code` attribute where a class declares one itself. -/
def codeOwn : K → Option Nat
  | .ValidationError => some 400
  | .ValidationTimeStampError => some 400
  | .ValidationExpirationError => some 400
  | .ValidationSizeError => some 400
  | .CircularRegionHierarchyError => some 400
  | .ForbiddenNotSecurity => some 403
  | .Unauthorized => some 401
  | .Forbidden => some 403
  | .NotFound => some 404
  | .Conflict => some 409
  | .UnexpectedError => some 500
  | .NotImplemented => some 501
  | .Gone => some 410
  | _ => none

/-- The `title` attribute where a class declares one itself. -/
def titleOwn : K → Option String
  | .ValidationError => some "Bad Request"
  | .ValidationTimeStampError => some "Bad Request"
  | .ValidationExpirationError => some "Bad Request"
  | .ValidationSizeError => some "Bad Request"
  | .CircularRegionHierarchyError => some "Bad Request"
  | .ForbiddenNotSecurity => some "Forbidden"
  | .Unauthorized => some "Unauthorized"
  | .Forbidden => some "Forbidden"
  | .NotFound => some "Not Found"
  | .Conflict => some "Conflict"
  | .UnexpectedError => some "Internal Server Error"
  | .NotImplemented => some "Not Implemented"
  | .Gone => some "Gone"
  | _ => none

/-- The `message_format` attribute where a class declares one itself
(the translation wrapper `_` is the identity here; the translation layer
is an external collaborator). -/
def messageFormatOwn : K → Option String
  | .ValidationError => some "Expecting to find %(attribute)s in %(target)s - the server could not comply with the request since it is either malformed or otherwise incorrect. The client is assumed to be in error."
  | .URLValidationError => some "Cannot create an endpoint with an invalid URL: %(url)s"
  | .PasswordValidationError => some "Password validation error: %(detail)s"
  | .PasswordAgeValidationError => some "You cannot change your password at this time due to the minimum password age. Once you change your password, it must be used for %(min_age_days)d day(s) before it can be changed. Please try again in %(days_left)d day(s) or contact your administrator to reset your password."
  | .SchemaValidationError => some "%(detail)s"
  | .ValidationTimeStampError => some "Timestamp not in expected format. The server could not comply with the request since it is either malformed or otherwise incorrect. The client is assumed to be in error."
  | .ValidationExpirationError => some "The 'expires_at' must not be before now. The server could not comply with the request since it is either malformed or otherwise incorrect. The client is assumed to be in error."
  | .StringLengthExceeded => some "String length exceeded.The length of string '%(string)s' exceeded the limit of column %(type)s(CHAR(%(length)d))."
  | .ValidationSizeError => some "Request attribute %(attribute)s must be less than or equal to %(size)i. The server could not comply with the request because the attribute size is invalid (too large). The client is assumed to be in error."
  | .CircularRegionHierarchyError => some "The specified parent region %(parent_region_id)s would create a circular region hierarchy."
  | .PasswordVerificationError => some "The password length must be less than or equal to %(size)i. The server could not comply with the request because the password is invalid."
  | .RegionDeletionError => some "Unable to delete region %(region_id)s because it or its child regions have associated endpoints."
  | .PKITokenExpected => some "The certificates you requested are not available. It is likely that this server does not use PKI tokens otherwise this is the result of misconfiguration."
  | .Unauthorized => some "The request you have made requires authentication."
  | .PasswordExpired => some "The password is expired and needs to be reset by an administrator for user: %(user_id)s"
  | .AuthPluginException => some "Authentication plugin error."
  | .MissingGroups => some "Unable to find valid groups while using mapping %(mapping_id)s"
  | .UserDisabled => some "The account is disabled for user: %(user_id)s"
  | .AccountLocked => some "The account is locked for user: %(user_id)s"
  | .AuthMethodNotSupported => some "Attempted to authenticate with an unsupported method."
  | .AdditionalAuthRequired => some "Additional authentications steps required."
  | .Forbidden => some "You are not authorized to perform the requested action."
  | .ForbiddenAction => some "You are not authorized to perform the requested action: %(action)s"
  | .ImmutableAttributeError => some "Could not change immutable attribute(s) '%(attributes)s' in target %(target)s"
  | .CrossBackendNotAllowed => some "Group membership across backend boundaries is not allowed, group in question is %(group_id)s, user is %(user_id)s"
  | .InvalidPolicyAssociation => some "Invalid mix of entities for policy association - only Endpoint, Service or Region+Service allowed. Request was - Endpoint: %(endpoint_id)s, Service: %(service_id)s, Region: %(region_id)s"
  | .InvalidDomainConfig => some "Invalid domain specific configuration: %(reason)s"
  | .NotFound => some "Could not find: %(target)s"
  | .EndpointNotFound => some "Could not find endpoint: %(endpoint_id)s"
  | .MetadataNotFound => some "An unhandled exception has occurred: Could not find metadata."
  | .PolicyNotFound => some "Could not find policy: %(policy_id)s"
  | .PolicyAssociationNotFound => some "Could not find policy association"
  | .RoleNotFound => some "Could not find role: %(role_id)s"
  | .ImpliedRoleNotFound => some "%(prior_role_id)s does not imply %(implied_role_id)s"
  | .InvalidImpliedRole => some "%(role_id)s cannot be an implied roles"
  | .RoleAssignmentNotFound => some "Could not find role assignment with role: %(role_id)s, user or group: %(actor_id)s, project or domain: %(target_id)s"
  | .RegionNotFound => some "Could not find region: %(region_id)s"
  | .ServiceNotFound => some "Could not find service: %(service_id)s"
  | .DomainNotFound => some "Could not find domain: %(domain_id)s"
  | .ProjectNotFound => some "Could not find project: %(project_id)s"
  | .InvalidParentProject => some "Cannot create project with parent: %(project_id)s"
  | .TokenNotFound => some "Could not find token: %(token_id)s"
  | .UserNotFound => some "Could not find user: %(user_id)s"
  | .GroupNotFound => some "Could not find group: %(group_id)s"
  | .MappingNotFound => some "Could not find mapping: %(mapping_id)s"
  | .TrustNotFound => some "Could not find trust: %(trust_id)s"
  | .TrustUseLimitReached => some "No remaining uses for trust: %(trust_id)s"
  | .CredentialNotFound => some "Could not find credential: %(credential_id)s"
  | .VersionNotFound => some "Could not find version: %(version)s"
  | .EndpointGroupNotFound => some "Could not find Endpoint Group: %(endpoint_group_id)s"
  | .IdentityProviderNotFound => some "Could not find Identity Provider: %(idp_id)s"
  | .ServiceProviderNotFound => some "Could not find Service Provider: %(sp_id)s"
  | .FederatedProtocolNotFound => some "Could not find federated protocol %(protocol_id)s for Identity Provider: %(idp_id)s"
  | .PublicIDNotFound => some "%(id)s"
  | .DomainConfigNotFound => some "Could not find %(group_or_option)s in domain configuration for domain %(domain_id)s"
  | .Conflict => some "Conflict occurred attempting to store %(type)s - %(details)s"
  | .UnexpectedError => some "An unexpected error prevented the server from fulfilling your request."
  | .DirectMappingError => some "Local section in mapping %(mapping_id)s refers to a remote match that doesn't exist (e.g. {0} in a local section)."
  | .NotImplemented => some "The action you have requested has not been implemented."
  | .Gone => some "The service you have requested is no longer available on this server."
  | .TokenlessAuthConfigError => some "Could not determine Identity Provider ID. The configuration option %(issuer_attribute)s was not found in the request environment."
  | _ => none

/-- The `debug_message_format` attribute where a class declares one
itself. -/
def debugMessageFormatOwn : K → Option String
  | .UnexpectedError => some "An unexpected error prevented the server from fulfilling your request: %(exception)s"
  | .TrustConsumeMaximumAttempt => some "Unable to consume trust %(trust_id)s, unable to acquire lock."
  | .CertificateFilesUnavailable => some "Expected signing certificates are not available on the server. Please check Keystone configuration."
  | .MalformedEndpoint => some "Malformed endpoint URL (%(endpoint)s), see ERROR log for details."
  | .MappedGroupNotFound => some "Group %(group_id)s returned by mapping %(mapping_id)s was not found in the backend."
  | .MetadataFileError => some "Error while reading metadata file, %(reason)s"
  | .AssignmentTypeCalculationError => some "Unexpected combination of grant attributes - User: %(user_id)s, Group: %(group_id)s, Project: %(project_id)s, Domain: %(domain_id)s"
  | .ConfigFileNotFound => some "The Keystone configuration file %(config_file)s could not be found."
  | .KeysNotFound => some "No encryption keys found; run keystone-manage fernet_setup to bootstrap one."
  | .MultipleSQLDriversInConfig => some "The Keystone domain-specific configuration has specified more than one SQL driver (only one is permitted): %(source)s."
  | .UnsupportedTokenVersionException => some "Token version is unrecognizable or unsupported."
  | .SAMLSigningError => some "Unable to sign SAML assertion. It is likely that this server does not have xmlsec1 installed, or this is the result of misconfiguration. Reason %(reason)s"
  | .OAuthHeadersMissingError => some "No Authorization headers found, cannot proceed with OAuth related calls, if running under HTTPd or Apache, ensure WSGIPassAuthorization is set to On."
  | .UnsupportedDriverVersion => some "%(driver)s is not supported driver version"
  | _ => none

/-- The method-resolution chain of a class, itself first, then its
ancestors.  The longest chain in the module has five classes, so the
fuel of eight never runs out. -/
def mroAux : Nat → Option K → List K
  | 0, _ => []
  | _, none => []
  | fuel + 1, some k => k :: mroAux fuel (parent k)

/-- Python attribute lookup order for a class. -/
def mro (k : K) : List K := mroAux 8 (some k)

/-- Python class-attribute lookup: the first class along the chain that
declares the attribute provides the value. -/
def lookupAttr {α : Type} (own : K → Option α) (k : K) : Option α :=
  (mro k).findSome? own

/-- The `code` attribute as Python resolves it. -/
def code (k : K) : Option Nat := lookupAttr codeOwn k

/-- The `title` attribute as Python resolves it. -/
def title (k : K) : Option String := lookupAttr titleOwn k

/-- The `message_format` attribute as Python resolves it. -/
def message_format (k : K) : Option String := lookupAttr messageFormatOwn k

/-- The `debug_message_format` attribute as Python resolves it. -/
def debug_message_format (k : K) : Option String := lookupAttr debugMessageFormatOwn k

/-- Whether the class inherits from `SecurityError` (has the SECURE
disclosure mode). -/
def isSecure (k : K) : Bool := (mro k).contains K.SecurityError

/-- Whether the class inherits from `UnexpectedError` (and so uses its
`_build_message` override). -/
def isUnexpected (k : K) : Bool := (mro k).contains K.UnexpectedError

/-- The fixed disclaimer `SecurityError.amendment`. -/
def amendment : String := "(Disable insecure_debug mode to suppress these details.)"

/-- The `kwargs.setdefault` performed by
`UnexpectedError._build_message` to be defensive about the `exception`
substitution. -/
def setdefaultException (kwargs : List (String × PyValue)) : List (String × PyValue) :=
  if (lookupK kwargs "exception").isSome then kwargs
  else kwargs ++ [("exception", PyValue.vtext "")]

/-- The keyword map actually used for substitution by kind `k`:
`UnexpectedError` kinds default the `exception` key first. -/
def augKwargs (k : K) (kwargs : List (String × PyValue)) : List (String × PyValue) :=
  if isUnexpected k then setdefaultException kwargs else kwargs

/-- The method `Error._build_message`: a truthy explicit message is
returned as given, otherwise the kind's template is interpolated. -/
def errorBuildMessage (k : K) (message : Option PyValue)
    (kwargs : List (String × PyValue)) : Except PyErr PyValue :=
  match message with
  | some m =>
    if truthy m then .ok m
    else (formatTemplateAttr (message_format k) kwargs).map PyValue.vtext
  | none => (formatTemplateAttr (message_format k) kwargs).map PyValue.vtext

/-- The method `SecurityError._build_message`: detailed messages only in
insecure_debug mode; a textual message is interpolated first, any truthy
message is then rendered with the amendment appended by
`'%(message)s %(amendment)s' % {...}`; otherwise the kind's own template
is interpolated. -/
def securityErrorBuildMessage (debug : Bool) (k : K) (message : Option PyValue)
    (kwargs : List (String × PyValue)) : Except PyErr PyValue :=
  match message with
  | some m =>
    if truthy m && debug then
      match (if isStr m then (formatWithUnicodeKwargs (textOf m) kwargs).map PyValue.vtext
             else .ok m) with
      | .error e => .error e
      | .ok m2 =>
        (pyFormat "%(message)s %(amendment)s"
          [("message", m2), ("amendment", PyValue.vtext amendment)]).map PyValue.vtext
    else (formatTemplateAttr (message_format k) kwargs).map PyValue.vtext
  | none => (formatTemplateAttr (message_format k) kwargs).map PyValue.vtext

/-- The method `UnexpectedError._build_message`: default the `exception`
keyword, replace a falsy message by the kind's `debug_message_format`,
and defer to `SecurityError._build_message`. -/
def unexpectedErrorBuildMessage (debug : Bool) (k : K) (message : Option PyValue)
    (kwargs : List (String × PyValue)) : Except PyErr PyValue :=
  let kwargs2 := setdefaultException kwargs
  let message2 : Option PyValue :=
    match message with
    | some m => if truthy m then some m else (debug_message_format k).map PyValue.vtext
    | none => (debug_message_format k).map PyValue.vtext
  securityErrorBuildMessage debug k message2 kwargs2

/-- Dynamic dispatch of `_build_message`: the most derived override along
the inheritance chain runs. -/
def buildMessage (debug : Bool) (k : K) (message : Option PyValue)
    (kwargs : List (String × PyValue)) : Except PyErr PyValue :=
  if isUnexpected k then unexpectedErrorBuildMessage debug k message kwargs
  else if isSecure k then securityErrorBuildMessage debug k message kwargs
  else errorBuildMessage k message kwargs

/-- An exception instance as `Error.__init__` leaves it: its kind, the
message passed to `super().__init__` (possibly a non-string object, or
`None` when the `KeyError` fallback reads an absent `message_format`),
and the number of warnings logged during construction. -/
structure ErrorInstance where
  kind : K
  message : Option PyValue
  warnings : Nat
deriving DecidableEq

/-- The constructor `Error.__init__`: build the message, and on
`KeyError` either re-raise (when `_FATAL_EXCEPTION_FORMAT_ERRORS` is
set) or log one warning and fall back to the raw `message_format`
attribute.  Every other exception propagates to the caller. -/
def errorInit (fatal debug : Bool) (k : K) (message : Option PyValue)
    (kwargs : List (String × PyValue)) : Except PyErr ErrorInstance :=
  match buildMessage debug k message kwargs with
  | .ok m => .ok ⟨k, some m, 0⟩
  | .error (.keyError n) =>
    if fatal then .error (.keyError n)
    else .ok ⟨k, (message_format k).map PyValue.vtext, 1⟩
  | .error e => .error e

/-- The body of the override `SecurityError.__deepcopy__`: `return self`.
Note that the method's signature at exception.py line 194 is
`def __deepcopy__(self):`, declaring no parameter besides `self`; whether
this body ever runs under the generic deep-copy facility is decided by
`copyDeepcopy` below. -/
def securityErrorDeepcopy (e : ErrorInstance) : ErrorInstance := e

/-- The number of parameters besides `self` that the source signature
`def __deepcopy__(self):` declares. -/
def deepcopyExtraParams : Nat := 0

/-- Modelled from the spec: the generic deep-copy facility
(`copy.deepcopy`, standard library, outside `src/`) invokes a
`__deepcopy__` override as `copier(memo)`, always passing the memo
dictionary as one positional argument; a Python call supplying a
positional argument to a method whose signature declares none raises
`TypeError`.  Only when the declared arity matches does the override's
body run. -/
def copyDeepcopy (e : ErrorInstance) : Except PyErr ErrorInstance :=
  if deepcopyExtraParams = 1 then .ok (securityErrorDeepcopy e) else .error .typeError

/-- A keyword map all of whose values are text. -/
def allTextKwargs (kwargs : List (String × PyValue)) : Bool :=
  kwargs.all (fun p => isStr p.2)

/-- A segment that interpolates with string conversion only (no `%d` or
`%i` hole). -/
def segStrOnly : Seg → Bool
  | .numHole _ _ => false
  | _ => true

/-! Helper lemmas shared by several claims. -/

/-- With `insecure_debug` off, `SecurityError._build_message` is template
interpolation whatever the message argument is. -/
theorem securityBuild_debug_off (k : K) (m : Option PyValue)
    (kw : List (String × PyValue)) :
    securityErrorBuildMessage false k m kw =
      (formatTemplateAttr (message_format k) kw).map PyValue.vtext := by
  cases m <;> simp [securityErrorBuildMessage]

/-- With `insecure_debug` off, dispatching `_build_message` on a SECURE
kind ignores the explicit message entirely. -/
theorem buildMessage_debug_off_ignores (k : K) (m : PyValue)
    (kw : List (String × PyValue)) (hs : isSecure k = true) :
    buildMessage false k (some m) kw = buildMessage false k none kw := by
  unfold buildMessage
  by_cases hu : isUnexpected k
  · simp [hu, unexpectedErrorBuildMessage, securityBuild_debug_off]
  · simp [hu, hs, securityBuild_debug_off]

/-- With `insecure_debug` off and no message, every kind interpolates its
own resolved template against the (possibly augmented) keyword map. -/
theorem buildMessage_debug_off_none (k : K) (kw : List (String × PyValue)) :
    buildMessage false k none kw =
      (formatTemplateAttr (message_format k) (augKwargs k kw)).map PyValue.vtext := by
  unfold buildMessage augKwargs
  by_cases hu : isUnexpected k
  · simp [hu, unexpectedErrorBuildMessage, securityBuild_debug_off]
  · by_cases hs : isSecure k
    · simp [hu, hs, securityBuild_debug_off]
    · simp [hu, hs, errorBuildMessage]

/-- Evaluation of the amendment interpolation
`'%(message)s %(amendment)s' % {...}`. -/
theorem amend_format (v : PyValue) (s : String) (h : renderS v = .ok s) :
    pyFormat "%(message)s %(amendment)s"
        [("message", v), ("amendment", PyValue.vtext amendment)] =
      .ok (s ++ " " ++ amendment) := by
  have hp : parseString "%(message)s %(amendment)s" =
      [.strHole "message", .lit " ", .strHole "amendment"] := rfl
  have ha : renderS (PyValue.vtext amendment) = .ok amendment := rfl
  unfold pyFormat
  rw [hp]
  simp [formatSegs, renderSeg, lookupK, h, ha, String.append_assoc]

/-- With `insecure_debug` on, a truthy message on a SECURE kind is
rendered (a textual one interpolated first) and the amendment appended. -/
theorem secure_debug_on (k : K) (m m2 : PyValue) (kw : List (String × PyValue))
    (s : String) (hm : truthy m = true)
    (h2 : (if isStr m then
            (formatWithUnicodeKwargs (textOf m) (augKwargs k kw)).map PyValue.vtext
           else .ok m) = .ok m2)
    (hr : renderS m2 = .ok s) (hs : isSecure k = true) :
    buildMessage true k (some m) kw = .ok (.vtext (s ++ " " ++ amendment)) := by
  unfold buildMessage
  by_cases hu : isUnexpected k
  · rw [augKwargs, if_pos hu] at h2
    rw [if_pos hu]
    unfold unexpectedErrorBuildMessage securityErrorBuildMessage
    simp only [hm, Bool.and_true, if_true]
    rw [h2]
    show (pyFormat "%(message)s %(amendment)s"
        [("message", m2), ("amendment", PyValue.vtext amendment)]).map PyValue.vtext =
      Except.ok (PyValue.vtext (s ++ " " ++ amendment))
    rw [amend_format m2 s hr]
    rfl
  · rw [augKwargs, if_neg hu] at h2
    rw [if_neg hu, if_pos hs]
    unfold securityErrorBuildMessage
    simp only [hm, Bool.and_true, if_true]
    rw [h2]
    show (pyFormat "%(message)s %(amendment)s"
        [("message", m2), ("amendment", PyValue.vtext amendment)]).map PyValue.vtext =
      Except.ok (PyValue.vtext (s ++ " " ++ amendment))
    rw [amend_format m2 s hr]
    rfl

/-- Every kind under `UnexpectedError` is also under `SecurityError`. -/
theorem unexpected_secure : ∀ k : K, isUnexpected k = true → isSecure k = true := by
  decide

/-- A value found in an all-text keyword map is text. -/
theorem lookupK_all_text (kw : List (String × PyValue)) (n : String) (v : PyValue)
    (hall : allTextKwargs kw = true) (h : lookupK kw n = some v) : isStr v = true := by
  induction kw with
  | nil => simp [lookupK] at h
  | cons p rest ih =>
    rw [allTextKwargs, List.all_cons, Bool.and_eq_true] at hall
    obtain ⟨k0, v0⟩ := p
    rw [lookupK] at h
    by_cases he : k0 = n
    · rw [if_pos he] at h
      cases h
      exact hall.1
    · rw [if_neg he] at h
      exact ih hall.2 h

/-- Text always renders. -/
theorem renderS_text (v : PyValue) (h : isStr v = true) :
    renderS v = .ok (textOf v) := by
  cases v
  · rfl
  · simp [isStr] at h
  · simp [isStr] at h
  · simp [isStr] at h

/-- Left-to-right interpolation over string-only segments with an
all-text keyword map either succeeds or raises a `KeyError`. -/
theorem formatSegs_text (segs : List Seg) (kw : List (String × PyValue))
    (hall : allTextKwargs kw = true) :
    segs.all segStrOnly = true →
    (∃ s, formatSegs segs kw = .ok s) ∨
    (∃ n, formatSegs segs kw = .error (.keyError n)) := by
  induction segs with
  | nil => exact fun _ => .inl ⟨"", rfl⟩
  | cons seg rest ih =>
    intro hsegs
    rw [List.all_cons, Bool.and_eq_true] at hsegs
    obtain ⟨hseg, hrest⟩ := hsegs
    rcases ih hrest with ⟨t, ht⟩ | ⟨n, hn⟩
    · cases seg with
      | lit s => exact .inl ⟨s ++ t, by simp [formatSegs, renderSeg, ht]⟩
      | strHole n2 =>
        cases hl : lookupK kw n2 with
        | none => exact .inr ⟨n2, by simp [formatSegs, renderSeg, hl]⟩
        | some v =>
          have hv := renderS_text v (lookupK_all_text kw n2 v hall hl)
          exact .inl ⟨textOf v ++ t, by simp [formatSegs, renderSeg, hl, hv, ht]⟩
      | numHole n2 c => simp [segStrOnly] at hseg
    · cases seg with
      | lit s => exact .inr ⟨n, by simp [formatSegs, renderSeg, hn]⟩
      | strHole n2 =>
        cases hl : lookupK kw n2 with
        | none => exact .inr ⟨n2, by simp [formatSegs, renderSeg, hl]⟩
        | some v =>
          have hv := renderS_text v (lookupK_all_text kw n2 v hall hl)
          exact .inr ⟨n, by simp [formatSegs, renderSeg, hl, hv, hn]⟩
      | numHole n2 c => simp [segStrOnly] at hseg

/-- The same disjunction survives `_format_with_unicode_kwargs`. -/
theorem formatWUK_text (f : String) (kw : List (String × PyValue))
    (hall : allTextKwargs kw = true)
    (hsegs : (parseString f).all segStrOnly = true) :
    (∃ s, formatWithUnicodeKwargs f kw = .ok s) ∨
    (∃ n, formatWithUnicodeKwargs f kw = .error (.keyError n)) := by
  rcases formatSegs_text (parseString f) kw hall hsegs with ⟨s, hs⟩ | ⟨n, hn⟩
  · exact .inl ⟨s, by rw [formatWithUnicodeKwargs, pyFormat, hs]⟩
  · exact .inr ⟨n, by rw [formatWithUnicodeKwargs, pyFormat, hn]⟩

/-- Defaulting the `exception` keyword keeps a keyword map all-text. -/
theorem augKwargs_text (k : K) (kw : List (String × PyValue))
    (hall : allTextKwargs kw = true) : allTextKwargs (augKwargs k kw) = true := by
  rw [augKwargs]
  split
  · rw [setdefaultException]
    split
    · exact hall
    · rw [allTextKwargs, List.all_append, Bool.and_eq_true]
      exact ⟨hall, rfl⟩
  · exact hall

/-- Claim C1: for every SECURE-mode kind, with the disclosure override
inactive at construction time the built message is independent of the
caller-supplied explicit message (hence discloses nothing from it, for
any explicit message); concretely, `UnexpectedError` with explicit
message "disk read failed at sector 9" renders exactly the fixed generic
text, with status code 500. -/
theorem C1_secure_inactive_no_disclosure :
    (∀ (k : K) (m : PyValue) (kw : List (String × PyValue)), isSecure k = true →
      buildMessage false k (some m) kw = buildMessage false k none kw) ∧
    errorInit false false K.UnexpectedError
        (some (.vtext "disk read failed at sector 9")) [] =
      .ok ⟨K.UnexpectedError,
        some (.vtext "An unexpected error prevented the server from fulfilling your request."),
        0⟩ ∧
    code K.UnexpectedError = some 500 :=
  ⟨fun k m kw hs => buildMessage_debug_off_ignores k m kw hs, rfl, rfl⟩

/-- Witness for C1 at a concrete SECURE kind and message. -/
theorem C1_witness :
    buildMessage false K.Unauthorized
        (some (.vtext "internal secret token deadbeef")) [] =
      buildMessage false K.Unauthorized none [] :=
  C1_secure_inactive_no_disclosure.1 K.Unauthorized
    (.vtext "internal secret token deadbeef") [] rfl

/-- Claim C3 counterexample: construction is not total with a non-empty
message in the claimed sense.  `PublicIDNotFound` with `id` bound to the
empty string constructs successfully but renders the empty message, and
`ForbiddenNotSecurity`, which defines no `message_format`, raises
`TypeError` from `None % kwargs` when constructed without a message. -/
theorem C3_counterexample :
    errorInit false false K.PublicIDNotFound none [("id", .vtext "")] =
      .ok ⟨K.PublicIDNotFound, some (.vtext ""), 0⟩ ∧
    errorInit false false K.ForbiddenNotSecurity none [] = .error .typeError :=
  ⟨rfl, rfl⟩

/-- Claim C3 as amended: construction never propagates a
missing-parameter `KeyError` when the strict flag is off, and for every
kind that defines a message template whose placeholders are all
string-converting, with the override inactive, no explicit message and
text-valued parameters, construction succeeds with a (possibly empty)
string message. -/
theorem C3_amended_totality :
    (∀ (debug : Bool) (k : K) (m : Option PyValue) (kw : List (String × PyValue))
      (n : String), errorInit false debug k m kw ≠ .error (.keyError n)) ∧
    (∀ (k : K) (kw : List (String × PyValue)) (f : String),
      message_format k = some f → (parseString f).all segStrOnly = true →
      allTextKwargs kw = true →
      ∃ (s : String) (w : Nat),
        errorInit false false k none kw = .ok ⟨k, some (.vtext s), w⟩) := by
  constructor
  · intro debug k m kw n
    rcases hb : buildMessage debug k m kw with e | m2
    · rw [errorInit, hb]
      cases e with
      | keyError n2 => simp
      | unicodeDecodeError => simp
      | typeError => simp
    · rw [errorInit, hb]
      simp
  · intro k kw f hf hsegs hall
    have hb := buildMessage_debug_off_none k kw
    rw [hf] at hb
    simp only [formatTemplateAttr] at hb
    rcases formatWUK_text f (augKwargs k kw) (augKwargs_text k kw hall) hsegs with
      ⟨s, hs⟩ | ⟨n, hn⟩
    · refine ⟨s, 0, ?_⟩
      rw [errorInit, hb, hs]
      rfl
    · refine ⟨f, 1, ?_⟩
      rw [errorInit, hb, hn]
      simp [Except.map, hf]

/-- Witness for the amended C3 at a concrete kind and keyword map. -/
theorem C3_witness :
    ∃ (s : String) (w : Nat),
      errorInit false false K.UserNotFound none [("user_id", .vtext "42")] =
        .ok ⟨K.UserNotFound, some (.vtext s), w⟩ :=
  C3_amended_totality.2 K.UserNotFound [("user_id", .vtext "42")]
    "Could not find user: %(user_id)s" rfl rfl rfl

/-- Claim C5 counterexample: a PLAIN kind returns a truthy explicit
message verbatim; the named parameters are never substituted into it, so
the claimed substituted rendering differs from the actual message. -/
theorem C5_counterexample :
    errorInit false false K.ValidationError (some (.vtext "hello %(attribute)s"))
        [("attribute", .vtext "email")] =
      .ok ⟨K.ValidationError, some (.vtext "hello %(attribute)s"), 0⟩ ∧
    PyValue.vtext "hello %(attribute)s" ≠ PyValue.vtext "hello email" :=
  ⟨rfl, by decide⟩

/-- Claim C5 as amended: for every PLAIN kind, a truthy explicit message
is used verbatim whether or not it contains placeholders; the named
parameters are interpolated only into the kind's template when no
explicit message is supplied. -/
theorem C5_amended_verbatim :
    ∀ (debug : Bool) (k : K) (m : PyValue) (kw : List (String × PyValue)),
      isSecure k = false → truthy m = true →
      buildMessage debug k (some m) kw = .ok m := by
  intro debug k m kw hs hm
  have hu : isUnexpected k = false := by
    cases hu2 : isUnexpected k
    · rfl
    · rw [unexpected_secure k hu2] at hs
      exact absurd hs (by simp)
  simp [buildMessage, hu, hs, errorBuildMessage, hm]

/-- Witness for the amended C5 at a concrete PLAIN kind. -/
theorem C5_witness :
    buildMessage false K.ValidationError (some (.vtext "free text %(x)s")) [] =
      .ok (.vtext "free text %(x)s") :=
  C5_amended_verbatim false K.ValidationError (.vtext "free text %(x)s") [] rfl rfl

/-- Claim C6 counterexample: with the override active, a non-string
explicit message on a SECURE kind is not replaced by the kind's fixed
template; its string rendering plus the disclaimer is returned instead,
which differs from the template text. -/
theorem C6_counterexample :
    buildMessage true K.Unauthorized (some (.vobj "boom")) [] =
      .ok (.vtext "boom (Disable insecure_debug mode to suppress these details.)") ∧
    PyValue.vtext "boom (Disable insecure_debug mode to suppress these details.)" ≠
      PyValue.vtext "The request you have made requires authentication." :=
  ⟨rfl, by decide⟩

/-- Claim C6 as amended: for every SECURE-mode kind, an explicit message
that is a non-string object such as another exception (with `str()`
rendering `x`) never has parameters substituted into it and construction
does not crash: with the override inactive the fixed template is
rendered, the message being ignored entirely, and with the override
active the object's string rendering followed by the disclaimer suffix
is returned, not the fixed template.  (Byte-string messages behave
differently per Python major version — Python 2 substitutes into them,
Python 3 renders their repr — and are outside this statement.) -/
theorem C6_amended_nonstring :
    ∀ (k : K) (x : String) (kw : List (String × PyValue)),
      isSecure k = true →
      (buildMessage false k (some (.vobj x)) kw = buildMessage false k none kw) ∧
      (buildMessage true k (some (.vobj x)) kw = .ok (.vtext (x ++ " " ++ amendment))) := by
  intro k x kw hs
  refine ⟨buildMessage_debug_off_ignores k (.vobj x) kw hs, ?_⟩
  exact secure_debug_on k (.vobj x) (.vobj x) kw x rfl (by simp [isStr]) rfl hs

/-- Witness for the amended C6 at a concrete non-string message. -/
theorem C6_witness :
    buildMessage true K.Forbidden (some (.vobj "stacktrace")) [] =
      .ok (.vtext ("stacktrace" ++ " " ++ amendment)) :=
  (C6_amended_nonstring K.Forbidden "stacktrace" [] rfl).2

/-- Claim C7: `UserNotFound` with `user_id` bound to "42" and no explicit
message renders "Could not find user: 42"; it declares neither `code` nor
`title` itself and resolves both to its parent `NotFound`'s 404 and
"Not Found". -/
theorem C7_user_not_found_inheritance :
    (∀ debug : Bool,
      errorInit false debug K.UserNotFound none [("user_id", .vtext "42")] =
        .ok ⟨K.UserNotFound, some (.vtext "Could not find user: 42"), 0⟩) ∧
    code K.UserNotFound = some 404 ∧ title K.UserNotFound = some "Not Found" ∧
    codeOwn K.UserNotFound = none ∧ titleOwn K.UserNotFound = none ∧
    parent K.UserNotFound = some K.NotFound ∧
    code K.NotFound = some 404 ∧ title K.NotFound = some "Not Found" :=
  ⟨fun _ => rfl, rfl, rfl, rfl, rfl, rfl, rfl, rfl⟩

/-- Claim C8: the override's body is the identity, but the source
signature `def __deepcopy__(self):` declares no `memo` parameter, so the
generic deep-copy facility's call `copier(memo)` raises `TypeError` for
every SECURE-kind instance instead of returning the same instance — the
code contradicts the method's own docstring, which states that the
override exists so that deep copy returns `self` unchanged. -/
theorem C8_deepcopy_type_error :
    (∀ e : ErrorInstance, copyDeepcopy e = .error .typeError) ∧
    deepcopyExtraParams = 0 ∧
    securityErrorDeepcopy
        ⟨K.UnexpectedError, some (.vtext "secret detail"), 0⟩ =
      ⟨K.UnexpectedError, some (.vtext "secret detail"), 0⟩ :=
  ⟨fun _ => rfl, rfl, rfl⟩

/-- Claim C9: when interpolation raises a unicode-decoding error the
formatter retries after safe-decoding every parameter value, and when
that decoding itself raises a unicode-decoding error it returns the raw
template unchanged; concretely this fallback path emits no warning
(warning count 0) and the successful retry substitutes the decoded
text. -/
theorem C9_unicode_retry_fallback :
    (∀ (f : String) (kw kw2 : List (String × PyValue)),
      pyFormat f kw = .error .unicodeDecodeError →
      safeDecodeAll kw = .ok kw2 →
      formatWithUnicodeKwargs f kw = pyFormat f kw2) ∧
    (∀ (f : String) (kw : List (String × PyValue)),
      pyFormat f kw = .error .unicodeDecodeError →
      safeDecodeAll kw = .error .unicodeDecodeError →
      formatWithUnicodeKwargs f kw = .ok f) ∧
    errorInit false false K.NotFound none [("target", .vbytes none none)] =
      .ok ⟨K.NotFound, some (.vtext "Could not find: %(target)s"), 0⟩ ∧
    errorInit false false K.NotFound none [("target", .vbytes none (some "x"))] =
      .ok ⟨K.NotFound, some (.vtext "Could not find: x"), 0⟩ := by
  refine ⟨fun f kw kw2 h1 h2 => ?_, fun f kw h1 h2 => ?_, rfl, rfl⟩
  · rw [formatWithUnicodeKwargs, h1, h2]
  · rw [formatWithUnicodeKwargs, h1, h2]

/-- Witness for C9 on the double-failure path at a concrete input. -/
theorem C9_witness :
    formatWithUnicodeKwargs "%(target)s" [("target", .vbytes none none)] =
      .ok "%(target)s" :=
  C9_unicode_retry_fallback.2.1 "%(target)s" [("target", .vbytes none none)] rfl rfl

/-- Claim C10: an explicit message equal to the empty string is treated
exactly as if no explicit message were supplied, for every kind (PLAIN
and SECURE alike), both by `_build_message` and by the whole
constructor. -/
theorem C10_empty_message_as_none :
    ∀ (fatal debug : Bool) (k : K) (kw : List (String × PyValue)),
      buildMessage debug k (some (.vtext "")) kw = buildMessage debug k none kw ∧
      errorInit fatal debug k (some (.vtext "")) kw = errorInit fatal debug k none kw := by
  intro fatal debug k kw
  have ht : truthy (.vtext "") = false := rfl
  have hb : buildMessage debug k (some (.vtext "")) kw = buildMessage debug k none kw := by
    unfold buildMessage unexpectedErrorBuildMessage securityErrorBuildMessage
      errorBuildMessage
    simp [ht]
  refine ⟨hb, ?_⟩
  unfold errorInit
  rw [hb]

end Keystone
